import Mathlib

/-!
Shallow embedding of the F1 race tracker (`main.py`, `race/detail.py`,
`race/animation.py`).  Machine reals are modelled as rationals; Python
exceptions as `Option`; the infinity produced by numpy float division by
zero as `WithTop ℚ`; the trigonometric fallback geometry is parameterised
by abstract `cos`/`sin`/`pi` arguments, since no verified property depends
on their values.
-/

namespace F1

/- Module-level constants, animation.py lines 7-15. -/

def SCREEN_WIDTH : ℚ := 1200
def SCREEN_HEIGHT : ℚ := 800
def TRACK_WIDTH : ℚ := 900
def TRACK_HEIGHT : ℚ := 600
def TRACK_X : ℚ := 150
def TRACK_Y : ℚ := 100

/-- Python `int()` applied to a float: truncation toward zero. -/
def pyInt (q : ℚ) : ℤ := if 0 ≤ q then ⌊q⌋ else ⌈q⌉

/-- Python list indexing `xs[i]`: negative indices count from the end;
an out-of-range index raises `IndexError`, modelled as `none`. -/
def pyGet {α : Type} (xs : List α) (i : ℤ) : Option α :=
  if 0 ≤ i then xs[i.toNat]?
  else if (-i).toNat ≤ xs.length then xs[xs.length - (-i).toNat]? else none

/-- animation.py line 51:
`progress = time_in_lap / lap_time.total_seconds() if lap_time.total_seconds() > 0 else 0`. -/
def progressOf (lap_time time_in_lap : ℚ) : ℚ :=
  if lap_time > 0 then time_in_lap / lap_time else 0

/-- animation.py lines 55-56:
`idx = int(progress * (len(positions) - 1)); idx = min(idx, len(positions) - 1)`. -/
def codeIdx (progress : ℚ) (len : ℕ) : ℤ :=
  min (pyInt (progress * ((len : ℚ) - 1))) ((len : ℤ) - 1)

/-- The `Car` entity, animation.py lines 18-31.  `lap_data` holds the
per-lap durations in seconds (`timedelta.total_seconds()`). -/
structure Car where
  driver_name : String
  team_color : String
  position : ℕ
  lap_data : List ℚ
  position_data : List (List (ℚ × ℚ))
  tyre_compounds : List String
  current_lap : ℕ
  lap_start_time : ℚ
  x : ℚ
  y : ℚ
deriving Repr, DecidableEq

/-- `Car.__init__`, animation.py lines 21-31. -/
def Car.init (driver_name team_color : String) (position : ℕ) : Car :=
  { driver_name := driver_name
    team_color := team_color
    position := position
    lap_data := []
    position_data := []
    tyre_compounds := []
    current_lap := 0
    lap_start_time := 0
    x := TRACK_X
    y := TRACK_Y + (position : ℚ) * 30 }

/-- The synthetic-oval fallback, animation.py lines 58-66, with abstract
`cos`, `sin` and `pi`. -/
def fallback_pos (cosQ sinQ : ℚ → ℚ) (piQ : ℚ) (progress : ℚ) : ℚ × ℚ :=
  let angle := progress * 2 * piQ
  let center_x := TRACK_X + TRACK_WIDTH / 2
  let center_y := TRACK_Y + TRACK_HEIGHT / 2
  let radius_x := TRACK_WIDTH / 2 - 50
  let radius_y := TRACK_HEIGHT / 2 - 50
  (center_x + radius_x * cosQ angle, center_y + radius_y * sinQ angle)

/-- animation.py lines 51-66: compute `progress` and move the car, either by
sampling the current lap's mapped positions or along the fallback oval.
`self.current_lap < len(self.position_data) and len(...) > 0` is rendered via
`getD _ []`, whose result has length 0 exactly when the conjunction is false. -/
def Car.apply_progress (cosQ sinQ : ℚ → ℚ) (piQ : ℚ) (c : Car)
    (lap_time time_in_lap : ℚ) : Option Car :=
  let progress := progressOf lap_time time_in_lap
  let positions := c.position_data.getD c.current_lap []
  if 0 < positions.length then
    match pyGet positions (codeIdx progress positions.length) with
    | some p => some { c with x := p.1, y := p.2 }
    | none => none
  else
    let p := fallback_pos cosQ sinQ piQ progress
    some { c with x := p.1, y := p.2 }

/-- `Car.update_position`, animation.py lines 33-66. -/
def Car.update_position (cosQ sinQ : ℚ → ℚ) (piQ : ℚ) (c : Car)
    (time_elapsed : ℚ) : Option Car :=
  if h : c.current_lap < c.lap_data.length then
    let lap_time := c.lap_data.get ⟨c.current_lap, h⟩
    let time_in_lap := time_elapsed - c.lap_start_time
    if lap_time ≤ time_in_lap then
      let c1 := { c with current_lap := c.current_lap + 1, lap_start_time := time_elapsed }
      if h2 : c1.current_lap < c1.lap_data.length then
        Car.apply_progress cosQ sinQ piQ c1 (c1.lap_data.get ⟨c1.current_lap, h2⟩) 0
      else
        some c1
    else
      Car.apply_progress cosQ sinQ piQ c lap_time time_in_lap
  else
    some c

/-- Iterated `update_position`, as driven by `RaceAnimation.on_update`
(animation.py lines 493-501) over a sequence of elapsed times. -/
def Car.update_seq (cosQ sinQ : ℚ → ℚ) (piQ : ℚ) (c : Car) : List ℚ → Option Car
  | [] => some c
  | t :: ts =>
    match Car.update_position cosQ sinQ piQ c t with
    | some c1 => Car.update_seq cosQ sinQ piQ c1 ts
    | none => none

/- Telemetry-to-canvas mapping, animation.py lines 140-158. -/

/-- `self.track_scale_params`, animation.py lines 148-153. -/
structure ScaleParams where
  x_min : ℚ
  x_max : ℚ
  y_min : ℚ
  y_max : ℚ
  x_range : ℚ
  y_range : ℚ
  scale : ℚ
deriving Repr, DecidableEq

/-- animation.py lines 156-157 (and identically 208-209): map one raw
telemetry point into canvas space. -/
def mapPoint (p : ScaleParams) (raw_x raw_y : ℚ) : ℚ × ℚ :=
  (TRACK_X + TRACK_WIDTH / 2 + (raw_x - p.x_min - p.x_range / 2) * p.scale,
   TRACK_Y + TRACK_HEIGHT / 2 + (raw_y - p.y_min - p.y_range / 2) * p.scale)

/-- numpy `.min()` over a sample array (never called on an empty array in the
source; the 0 default is unreachable there). -/
def npMin : List ℚ → ℚ
  | [] => 0
  | v :: vs => vs.foldl min v

/-- numpy `.max()` over a sample array. -/
def npMax : List ℚ → ℚ
  | [] => 0
  | v :: vs => vs.foldl max v

/-- animation.py lines 143-144: `x_range = x_max - x_min` (same for y). -/
def rangeOf (samples : List ℚ) : ℚ := npMax samples - npMin samples

/-- IEEE float division as it occurs at animation.py line 146: the dividend is
a positive screen constant and the divisor a non-negative numpy float range, so
a zero divisor yields +infinity (`⊤`, with a suppressed RuntimeWarning), never
an exception. -/
def fdiv (a b : ℚ) : WithTop ℚ := if b = 0 then ⊤ else ((a / b : ℚ) : WithTop ℚ)

/-- animation.py line 146:
`scale = min(TRACK_WIDTH / x_range, TRACK_HEIGHT / y_range) * 0.9` under IEEE
division: a zero range makes its operand infinite, `min` then selects the
other operand, and the 0.9 factor keeps an infinite minimum infinite.  There
is no guard on the divisors in the source. -/
def setup_scale (x_range y_range : ℚ) : WithTop ℚ :=
  WithTop.map (fun s => s * (9 / 10))
    (min (fdiv TRACK_WIDTH x_range) (fdiv TRACK_HEIGHT y_range))

/-- Modelled from the spec (§4.1): "guard against zero range by substituting 1
to avoid division by zero; scale = min(canvas_width/x_range,
canvas_height/y_range) * 0.9".  This guarded computation does not exist in
animation.py; it is stated only to compare with `setup_scale`. -/
def setup_scale_spec (x_range y_range : ℚ) : ℚ :=
  let xr := if x_range = 0 then 1 else x_range
  let yr := if y_range = 0 then 1 else y_range
  min (TRACK_WIDTH / xr) (TRACK_HEIGHT / yr) * (9 / 10)

/- Car-data construction in `setup_race`, animation.py lines 165-258. -/

/-- One row of a driver's lap table as `setup_race` reads it: `lap_time` is
`none` for a NaT/None `LapTime`; `compound` is `none` for a missing
`Compound`; `telemetry` is `none` when `get_telemetry()` fails or lacks
X/Y columns. -/
structure LapRec where
  lap_time : Option ℚ
  compound : Option String
  telemetry : Option (List (ℚ × ℚ))
deriving Repr, DecidableEq

/-- Body of the per-lap loop of the real-laps branch, animation.py
lines 180-216: appends one entry to `lap_data`, one to `tyre_compounds`
and one to `position_data`. -/
def addLap (idx : ℕ) (params : Option ScaleParams) (c : Car) (lap : LapRec) : Car :=
  let c :=
    match lap.lap_time with
    | some t => { c with lap_data := c.lap_data ++ [t] }
    | none => { c with lap_data := c.lap_data ++ [100 + (idx : ℚ) * (1 / 2)] }
  let c :=
    match lap.compound with
    | some comp =>
        if comp ≠ "" ∧ comp ≠ "nan" then
          { c with tyre_compounds := c.tyre_compounds ++ [comp] }
        else
          { c with tyre_compounds := c.tyre_compounds ++ ["UNKNOWN"] }
    | none => { c with tyre_compounds := c.tyre_compounds ++ ["UNKNOWN"] }
  match lap.telemetry, params with
  | some coords, some ps =>
      { c with position_data :=
          c.position_data ++ [coords.map (fun q => mapPoint ps q.1 q.2)] }
  | _, _ => { c with position_data := c.position_data ++ [[]] }

/-- Real-laps branch of `setup_race`, animation.py lines 179-218. -/
def build_real_laps (idx : ℕ) (params : Option ScaleParams) (laps : List LapRec)
    (c : Car) : Car :=
  laps.foldl (addLap idx params) c

/-- Body of the per-driver fallback loop, animation.py lines 222-228.  Note
the source appends `'UNKNOWN'` to `tyre_compounds` twice per lap
(lines 227 and 228). -/
def add_fallback_lap_driver (base_time : ℚ) (c : Car) (lap : ℕ) : Car :=
  let variation : ℚ := ((lap % 5 : ℕ) : ℚ) * (1 / 2) - 1
  let lap_time := base_time + variation
  { c with lap_data := c.lap_data ++ [lap_time]
           position_data := c.position_data ++ [[]]
           tyre_compounds := c.tyre_compounds ++ ["UNKNOWN", "UNKNOWN"] }

/-- Per-driver fallback branch of `setup_race` (driver has no laps),
animation.py lines 219-228. -/
def build_fallback_driver (idx num_laps : ℕ) (c : Car) : Car :=
  let base_time : ℚ := 85 + (idx : ℚ) * (3 / 2)
  (List.range num_laps).foldl (add_fallback_lap_driver base_time) c

/-- Body of the whole-race fallback loop, animation.py lines 251-256:
a single `'UNKNOWN'` per lap. -/
def add_fallback_lap (base_time : ℚ) (c : Car) (lap : ℕ) : Car :=
  let variation : ℚ := ((lap % 5 : ℕ) : ℚ) * (1 / 2) - 1
  let lap_time := base_time + variation
  { c with lap_data := c.lap_data ++ [lap_time]
           position_data := c.position_data ++ [[]]
           tyre_compounds := c.tyre_compounds ++ ["UNKNOWN"] }

/-- Whole-race fallback branch of `setup_race`, animation.py lines 240-258. -/
def build_fallback_race (idx num_laps : ℕ) (c : Car) : Car :=
  let base_time : ℚ := 85 + (idx : ℚ) * (3 / 2)
  (List.range num_laps).foldl (add_fallback_lap base_time) c

/- The animation window state, animation.py lines 69-100 and 493-540. -/

/-- Scalar state of `RaceAnimation`.  `cars` and `track_map` are as filled in
by `setup_race`; the remaining fields are initialised in `__init__`
(lines 76-84) and mutated only by the event handlers below. -/
structure RaceAnimation where
  cars : List Car
  track_map : List (ℚ × ℚ)
  time_elapsed : ℚ
  is_paused : Bool
  speed_multiplier : ℤ
  zoom_level : ℚ
  camera_x : ℚ
  camera_y : ℚ
deriving Repr, DecidableEq

/-- `RaceAnimation.__init__`, animation.py lines 76-84 (scalar fields;
`cars` and `track_map` stand for whatever `setup_race` put there, since
`setup_race` touches no scalar field). -/
def RaceAnimation.init (cars : List Car) (track_map : List (ℚ × ℚ)) : RaceAnimation :=
  { cars := cars
    track_map := track_map
    time_elapsed := 0
    is_paused := false
    speed_multiplier := 1
    zoom_level := 1
    camera_x := 0
    camera_y := 0 }

/-- Reset of one car inside `restart_race`, animation.py lines 508-512. -/
def Car.restart (c : Car) : Car :=
  { c with current_lap := 0
           lap_start_time := 0
           x := TRACK_X
           y := TRACK_Y + (c.position : ℚ) * 30 }

/-- `RaceAnimation.restart_race`, animation.py lines 503-512. -/
def RaceAnimation.restart_race (s : RaceAnimation) : RaceAnimation :=
  { s with time_elapsed := 0
           is_paused := false
           cars := s.cars.map Car.restart }

/-- Keys handled by `on_key_press`; `plus` covers both `PLUS` and `EQUAL`,
`zero` both `NUM_0` and `KEY_0`. -/
inductive Key
  | space
  | r
  | escape
  | up
  | down
  | plus
  | minus
  | zero
deriving Repr, DecidableEq

/-- `RaceAnimation.on_key_press`, animation.py lines 514-533.  `ESCAPE`
closes the window, leaving the fields modelled here unchanged. -/
def RaceAnimation.on_key_press (s : RaceAnimation) (k : Key) : RaceAnimation :=
  match k with
  | .space => { s with is_paused := !s.is_paused }
  | .r => s.restart_race
  | .escape => s
  | .up => { s with speed_multiplier := min 1000 (s.speed_multiplier + 10) }
  | .down => { s with speed_multiplier := max 10 (s.speed_multiplier - 10) }
  | .plus => { s with zoom_level := min 5 (s.zoom_level + 1 / 5) }
  | .minus => { s with zoom_level := max (1 / 2) (s.zoom_level - 1 / 5) }
  | .zero => { s with zoom_level := 1, camera_x := 0, camera_y := 0 }

/-- `RaceAnimation.on_mouse_scroll`, animation.py lines 535-540. -/
def RaceAnimation.on_mouse_scroll (s : RaceAnimation)
    (x y scroll_x scroll_y : ℚ) : RaceAnimation :=
  if 0 < scroll_y then { s with zoom_level := min 5 (s.zoom_level + 1 / 10) }
  else if scroll_y < 0 then { s with zoom_level := max (1 / 2) (s.zoom_level - 1 / 10) }
  else s

/-- One user input event reaching the window's handlers. -/
inductive AnimInput
  | key : Key → AnimInput
  | scroll : ℚ → ℚ → ℚ → ℚ → AnimInput
deriving Repr, DecidableEq

/-- Dispatch one input event. -/
def RaceAnimation.handle (s : RaceAnimation) : AnimInput → RaceAnimation
  | .key k => s.on_key_press k
  | .scroll x y sx sy => s.on_mouse_scroll x y sx sy

/-- Run a sequence of input events. -/
def RaceAnimation.run_inputs (s : RaceAnimation) (l : List AnimInput) : RaceAnimation :=
  l.foldl RaceAnimation.handle s

/- The fetcher, race/detail.py. -/

/-- A Python function signature: parameter names in order, and how many of
the trailing parameters carry default values. -/
structure PySignature where
  params : List String
  numDefaults : ℕ
deriving Repr, DecidableEq

/-- detail.py line 17: `def get_race_details(year, race_round)`. -/
def get_race_details_sig : PySignature :=
  { params := ["year", "race_round"], numDefaults := 0 }

/-- detail.py line 119: `def get_current_season_races(year=None)`. -/
def get_current_season_races_sig : PySignature :=
  { params := ["year"], numDefaults := 1 }

/-- Python call binding: `true` iff a call with `npos` positional arguments
and keyword arguments named `kwargs` binds to the signature without raising
`TypeError` (before the function body runs). -/
def bindsOk (sig : PySignature) (npos : ℕ) (kwargs : List String) : Bool :=
  decide (npos ≤ sig.params.length) &&
  kwargs.all (fun k => (sig.params.drop npos).contains k) &&
  decide kwargs.Nodup &&
  ((sig.params.take (sig.params.length - sig.numDefaults)).drop npos).all
    (fun p => kwargs.contains p)

/-! ## Lemmas about `update_position` -/

/-- `apply_progress` moves only `x` and `y`. -/
lemma apply_progress_fields (cq sq : ℚ → ℚ) (pq : ℚ) (c : Car) (lt til : ℚ) (c' : Car)
    (h : Car.apply_progress cq sq pq c lt til = some c') :
    c'.current_lap = c.current_lap ∧ c'.lap_data = c.lap_data := by
  unfold Car.apply_progress at h
  dsimp only at h
  split at h
  · split at h
    · injection h with h
      subst h
      exact ⟨rfl, rfl⟩
    · exact absurd h (by simp)
  · injection h with h
    subst h
    exact ⟨rfl, rfl⟩

/-- A car whose lap list is exhausted is left untouched by `update_position`. -/
lemma update_position_frozen (cq sq : ℚ → ℚ) (pq : ℚ) (c : Car) (t : ℚ)
    (h : c.lap_data.length ≤ c.current_lap) :
    Car.update_position cq sq pq c t = some c := by
  unfold Car.update_position
  rw [dif_neg (by omega)]

/-- One `update_position` step keeps `lap_data` and keeps `current_lap` within
the lap count. -/
lemma update_position_step (cq sq : ℚ → ℚ) (pq : ℚ) (c c' : Car) (t : ℚ)
    (h : Car.update_position cq sq pq c t = some c') :
    c'.lap_data = c.lap_data ∧
    (c.current_lap ≤ c.lap_data.length → c'.current_lap ≤ c.lap_data.length) := by
  unfold Car.update_position at h
  split at h
  case isTrue hlt =>
    dsimp only at h
    split at h
    case isTrue hadv =>
      split at h
      case isTrue h2 =>
        obtain ⟨hcl, hld⟩ := apply_progress_fields _ _ _ _ _ _ _ h
        refine ⟨hld, fun _ => ?_⟩
        rw [hcl]
        show c.current_lap + 1 ≤ c.lap_data.length
        omega
      case isFalse h2 =>
        injection h with h
        subst h
        refine ⟨rfl, fun _ => ?_⟩
        show c.current_lap + 1 ≤ c.lap_data.length
        omega
    case isFalse hadv =>
      obtain ⟨hcl, hld⟩ := apply_progress_fields _ _ _ _ _ _ _ h
      refine ⟨hld, fun _ => ?_⟩
      rw [hcl]
      omega
  case isFalse hlt =>
    injection h with h
    subst h
    exact ⟨rfl, fun hh => hh⟩

/-- Sequence version of `update_position_step`. -/
lemma update_seq_step (cq sq : ℚ → ℚ) (pq : ℚ) :
    ∀ (ts : List ℚ) (c c' : Car),
      Car.update_seq cq sq pq c ts = some c' →
      c'.lap_data = c.lap_data ∧
      (c.current_lap ≤ c.lap_data.length → c'.current_lap ≤ c.lap_data.length)
  | [], c, c', h => by
      unfold Car.update_seq at h
      injection h with h
      subst h
      exact ⟨rfl, fun hh => hh⟩
  | t :: ts, c, c', h => by
      unfold Car.update_seq at h
      split at h
      case h_1 c1 hc1 =>
        obtain ⟨hld1, hcl1⟩ := update_position_step _ _ _ _ _ _ hc1
        obtain ⟨hld2, hcl2⟩ := update_seq_step cq sq pq ts c1 c' h
        refine ⟨hld2.trans hld1, fun hle => ?_⟩
        rw [← hld1]
        exact hcl2 (by rw [hld1]; exact hcl1 hle)
      case h_2 => exact absurd h (by simp)

/-- A frozen car stays exactly where it is under any further update sequence. -/
lemma update_seq_frozen (cq sq : ℚ → ℚ) (pq : ℚ) (c : Car) (ts : List ℚ)
    (h : c.lap_data.length ≤ c.current_lap) :
    Car.update_seq cq sq pq c ts = some c := by
  induction ts with
  | nil => rfl
  | cons t ts ih =>
      unfold Car.update_seq
      rw [update_position_frozen cq sq pq c t h]
      exact ih

/-! ## The claims -/

/-- C1: for every car with a non-empty lap list and every increasing sequence
of elapsed times, iterated `update_position` never advances `current_lap`
past `len(lap_data)`, and once `current_lap` equals `len(lap_data)` further
calls leave the whole car (in particular `current_lap`, `x`, `y`) unchanged. -/
theorem c1_lap_index_invariant_and_freeze (cq sq : ℚ → ℚ) (pq : ℚ)
    (c c' : Car) (ts : List ℚ)
    (hne : c.lap_data ≠ [])
    (hmono : List.Chain' (· < ·) ts)
    (hinv : c.current_lap ≤ c.lap_data.length)
    (hrun : Car.update_seq cq sq pq c ts = some c') :
    c'.lap_data = c.lap_data ∧
    c'.current_lap ≤ c.lap_data.length ∧
    (c.current_lap = c.lap_data.length → c' = c) := by
  obtain ⟨hld, hcl⟩ := update_seq_step cq sq pq ts c c' hrun
  refine ⟨hld, hcl hinv, fun hfr => ?_⟩
  have hfz := update_seq_frozen cq sq pq c ts (le_of_eq hfr.symm)
  rw [hfz] at hrun
  injection hrun with hrun
  exact hrun.symm

/-- A car that has completed its single 90-second lap, used to witness C1. -/
def carA : Car :=
  { driver_name := "VER", team_color := "blue", position := 0,
    lap_data := [90], position_data := [[]],
    tyre_compounds := ["SOFT"], current_lap := 1, lap_start_time := 0, x := 3, y := 4 }

/-- Witness for C1 at a concrete frozen car and the time sequence `[1, 2]`. -/
theorem c1_witness :
    carA.lap_data ≠ [] ∧
    List.Chain' (· < ·) [(1 : ℚ), 2] ∧
    carA.current_lap ≤ carA.lap_data.length ∧
    Car.update_seq (fun _ => 0) (fun _ => 0) 0 carA [1, 2] = some carA ∧
    (carA.lap_data = carA.lap_data ∧
     carA.current_lap ≤ carA.lap_data.length ∧
     (carA.current_lap = carA.lap_data.length → carA = carA)) :=
  ⟨by decide, by norm_num [List.chain'_cons], by decide, by decide,
   c1_lap_index_invariant_and_freeze (fun _ => 0) (fun _ => 0) 0 carA carA [1, 2]
     (by decide) (by norm_num [List.chain'_cons]) (by decide) (by decide)⟩

/-! ## C2: sample-index selection -/

/-- Modelled from the spec (§4.1): "index into it at `round(progress * (len-1))`,
clamped to the last valid index".  This rounding computation does not exist in
animation.py (which truncates with `int()`); it is stated only to compare with
`codeIdx`. -/
def specRoundIdx (progress : ℚ) (len : ℕ) : ℤ :=
  min (round (progress * ((len : ℚ) - 1))) ((len : ℤ) - 1)

/-- A car with one 10-second lap and three mapped points, used for C2. -/
def carB : Car :=
  { driver_name := "VER", team_color := "blue", position := 0,
    lap_data := [10], position_data := [[(0, 0), (10, 10), (20, 20)]],
    tyre_compounds := ["SOFT"], current_lap := 0, lap_start_time := 0, x := 0, y := 0 }

/-- When the current lap is not yet finished, `update_position` is
`apply_progress` on the current lap. -/
lemma update_position_no_advance (cq sq : ℚ → ℚ) (pq : ℚ) (c : Car) (t : ℚ)
    (h : c.current_lap < c.lap_data.length)
    (hlt : t - c.lap_start_time < c.lap_data.get ⟨c.current_lap, h⟩) :
    Car.update_position cq sq pq c t =
      Car.apply_progress cq sq pq c (c.lap_data.get ⟨c.current_lap, h⟩)
        (t - c.lap_start_time) := by
  rw [Car.update_position, dif_pos h, if_neg (not_le.mpr hlt)]

/-- Evaluation of `apply_progress` in the telemetry-sampling branch. -/
lemma apply_progress_sample (cq sq : ℚ → ℚ) (pq : ℚ) (c : Car) (lt til : ℚ)
    (idx : ℤ) (p : ℚ × ℚ)
    (hpos : 0 < (c.position_data.getD c.current_lap []).length)
    (hidx : codeIdx (progressOf lt til) (c.position_data.getD c.current_lap []).length = idx)
    (hget : pyGet (c.position_data.getD c.current_lap []) idx = some p) :
    Car.apply_progress cq sq pq c lt til = some { c with x := p.1, y := p.2 } := by
  rw [Car.apply_progress]
  dsimp only
  rw [if_pos hpos, hidx, hget]

/-- C2 counterexample: at lap duration 10 s and elapsed-in-lap 9.5 s,
`progress = 0.95` and the three-point list gives `progress * (len-1) = 1.9`;
the source truncates to index 1 (the point `(10, 10)`), whereas the claimed
`round` would give index 2 (the point `(20, 20)`). -/
theorem c2_counterexample :
    progressOf 10 (19 / 2) = 19 / 20 ∧
    specRoundIdx (19 / 20) 3 = 2 ∧
    codeIdx (19 / 20) 3 = 1 ∧
    (Car.update_position (fun _ => 0) (fun _ => 0) 0 carB (19 / 2)).map Car.x = some 10 ∧
    pyGet (carB.position_data.getD 0 []) (specRoundIdx (19 / 20) 3) = some (20, 20) ∧
    (10 : ℚ) ≠ 20 := by
  have harith : (19 : ℚ) / 20 * ((3 : ℕ) - 1 : ℚ) = 19 / 10 := by norm_num
  have hprog : progressOf 10 ((19 : ℚ) / 2) = 19 / 20 := by
    rw [progressOf, if_pos (by norm_num : (10 : ℚ) > 0)]
    norm_num
  have hspec : specRoundIdx (19 / 20) 3 = 2 := by
    rw [specRoundIdx, harith]
    have : round ((19 : ℚ) / 10) = 2 := by
      rw [round_eq, Int.floor_eq_iff]
      norm_num
    rw [this]
    decide
  have hcode : codeIdx (19 / 20) 3 = 1 := by
    rw [codeIdx, pyInt, harith, if_pos (by norm_num : (0 : ℚ) ≤ 19 / 10)]
    have : (⌊(19 : ℚ) / 10⌋ : ℤ) = 1 := by
      rw [Int.floor_eq_iff]
      norm_num
    rw [this]
    decide
  have hupd := update_position_no_advance (fun _ => 0) (fun _ => 0) 0 carB (19 / 2)
    (by decide) (by norm_num [carB])
  have hsub : (19 : ℚ) / 2 - carB.lap_start_time = 19 / 2 := by
    norm_num [carB]
  have hidx : codeIdx (progressOf (carB.lap_data.get ⟨carB.current_lap, by decide⟩)
      ((19 : ℚ) / 2 - carB.lap_start_time)) (carB.position_data.getD carB.current_lap []).length
      = 1 := by
    show codeIdx (progressOf 10 ((19 : ℚ) / 2 - carB.lap_start_time)) 3 = 1
    rw [hsub, hprog, hcode]
  have happ := apply_progress_sample (fun _ => 0) (fun _ => 0) 0 carB
    (carB.lap_data.get ⟨carB.current_lap, by decide⟩) ((19 : ℚ) / 2 - carB.lap_start_time)
    1 (10, 10) (by decide) hidx (by decide)
  refine ⟨hprog, hspec, hcode, ?_, ?_, by norm_num⟩
  · rw [hupd, happ]
    rfl
  · rw [hspec]
    decide

/-- C2 (amended): the sample index is `int(progress * (len-1))` — truncation,
which on the non-negative progress values that occur equals the floor — clamped
to the last valid index; the claimed example (duration 90 s, elapsed 45 s,
length 101) still selects index 50 because `0.5 * 100` is exact. -/
theorem c2_amended_truncated_index (cq sq : ℚ → ℚ) (pq : ℚ) (c : Car) (t : ℚ)
    (h : c.current_lap < c.lap_data.length)
    (hlap : 0 < c.lap_data.get ⟨c.current_lap, h⟩)
    (h0 : 0 ≤ t - c.lap_start_time)
    (hlt : t - c.lap_start_time < c.lap_data.get ⟨c.current_lap, h⟩)
    (hpos : 0 < (c.position_data.getD c.current_lap []).length) :
    (progressOf 90 45 = 1 / 2 ∧ codeIdx (1 / 2) 101 = 50) ∧
    codeIdx (progressOf (c.lap_data.get ⟨c.current_lap, h⟩) (t - c.lap_start_time))
        (c.position_data.getD c.current_lap []).length =
      min ⌊progressOf (c.lap_data.get ⟨c.current_lap, h⟩) (t - c.lap_start_time) *
            (((c.position_data.getD c.current_lap []).length : ℚ) - 1)⌋
          (((c.position_data.getD c.current_lap []).length : ℤ) - 1) ∧
    ∃ p, pyGet (c.position_data.getD c.current_lap [])
          (codeIdx (progressOf (c.lap_data.get ⟨c.current_lap, h⟩) (t - c.lap_start_time))
            (c.position_data.getD c.current_lap []).length) = some p ∧
      Car.update_position cq sq pq c t = some { c with x := p.1, y := p.2 } := by
  have hex : progressOf 90 45 = 1 / 2 ∧ codeIdx (1 / 2) 101 = 50 := by
    constructor
    · rw [progressOf, if_pos (by norm_num : (90 : ℚ) > 0)]
      norm_num
    · rw [codeIdx, pyInt]
      have harith : (1 : ℚ) / 2 * ((101 : ℕ) - 1 : ℚ) = 50 := by norm_num
      rw [harith, if_pos (by norm_num : (0 : ℚ) ≤ 50)]
      have : (⌊(50 : ℚ)⌋ : ℤ) = 50 := by
        rw [Int.floor_eq_iff]
        norm_num
      rw [this]
      decide
  set lap_time := c.lap_data.get ⟨c.current_lap, h⟩ with hlt_def
  set positions := c.position_data.getD c.current_lap [] with hpos_def
  set progress := progressOf lap_time (t - c.lap_start_time) with hprog_def
  set n := positions.length with hn_def
  have hprog0 : 0 ≤ progress := by
    rw [hprog_def, progressOf, if_pos hlap]
    exact div_nonneg h0 hlap.le
  have hprog1 : progress < 1 := by
    rw [hprog_def, progressOf, if_pos hlap]
    exact (div_lt_one hlap).mpr hlt
  have hn1 : (1 : ℚ) ≤ (n : ℚ) := by exact_mod_cast hpos
  have harg0 : 0 ≤ progress * ((n : ℚ) - 1) := mul_nonneg hprog0 (by linarith)
  have hIdxEq : codeIdx progress n = min ⌊progress * ((n : ℚ) - 1)⌋ ((n : ℤ) - 1) := by
    rw [codeIdx, pyInt, if_pos harg0]
  have hfloor0 : 0 ≤ ⌊progress * ((n : ℚ) - 1)⌋ := Int.floor_nonneg.mpr harg0
  have hmin0 : 0 ≤ codeIdx progress n := by
    rw [hIdxEq]
    refine le_min hfloor0 ?_
    have : 1 ≤ n := hpos
    omega
  have hminle : codeIdx progress n ≤ (n : ℤ) - 1 := by
    rw [hIdxEq]
    exact min_le_right _ _
  have htoNat : (codeIdx progress n).toNat < n := by omega
  have hpg : pyGet positions (codeIdx progress n) =
      some (positions.get ⟨(codeIdx progress n).toNat, htoNat⟩) := by
    rw [pyGet, if_pos hmin0]
    simp [List.getElem?_eq_getElem htoNat]
  have hupdate := update_position_no_advance cq sq pq c t h hlt
  have happly := apply_progress_sample cq sq pq c lap_time (t - c.lap_start_time)
    (codeIdx progress n) (positions.get ⟨(codeIdx progress n).toNat, htoNat⟩)
    hpos rfl hpg
  exact ⟨hex, hIdxEq,
    ⟨positions.get ⟨(codeIdx progress n).toNat, htoNat⟩, hpg, hupdate.trans happly⟩⟩

/-- Witness for C2 (amended) at `carB` and elapsed time 2.5 s:
`progress = 0.25`, index `int(0.25 * 2) = 0`, point `(0, 0)`. -/
theorem c2_witness :
    carB.current_lap < carB.lap_data.length ∧
    (0 : ℚ) ≤ 5 / 2 - carB.lap_start_time ∧
    0 < (carB.position_data.getD carB.current_lap []).length ∧
    (∃ p, pyGet (carB.position_data.getD carB.current_lap [])
          (codeIdx (progressOf 10 (5 / 2 - carB.lap_start_time))
            (carB.position_data.getD carB.current_lap []).length) = some p ∧
      Car.update_position (fun _ => 0) (fun _ => 0) 0 carB (5 / 2) =
        some { carB with x := p.1, y := p.2 }) :=
  ⟨by decide, by norm_num [carB], by decide,
   (c2_amended_truncated_index (fun _ => 0) (fun _ => 0) 0 carB (5 / 2)
     (by decide) (by norm_num [carB]) (by norm_num [carB]) (by norm_num [carB])
     (by decide)).2.2⟩

/-! ## C3: the scale computation and the (absent) zero-range guard -/

/-- C3 counterexample: with constant X samples the x-range is 0 and the source
divides the canvas width by zero, producing an infinite operand; with
y-range 0.5 the computed scale is `min(inf, 1200) * 0.9 = 1080`, whereas the
substitute-1 guard the claim describes would give `min(900, 1200) * 0.9 = 810`.
No substitution of 1 happens in animation.py lines 140-153. -/
theorem c3_counterexample :
    rangeOf [5, 5] = 0 ∧
    fdiv TRACK_WIDTH (rangeOf [5, 5]) = ⊤ ∧
    setup_scale (rangeOf [5, 5]) (rangeOf [0, 1 / 2]) = ((1080 : ℚ) : WithTop ℚ) ∧
    setup_scale_spec (rangeOf [5, 5]) (rangeOf [0, 1 / 2]) = 810 ∧
    ((1080 : ℚ) : WithTop ℚ) ≠ ((810 : ℚ) : WithTop ℚ) := by
  have h5 : rangeOf [5, 5] = 0 := by
    rw [rangeOf, npMax, npMin]
    norm_num
  have h12 : rangeOf [0, 1 / 2] = 1 / 2 := by
    rw [rangeOf, npMax, npMin]
    norm_num
  have htop : fdiv TRACK_WIDTH 0 = ⊤ := by
    rw [fdiv, if_pos rfl]
  have hfin : fdiv TRACK_HEIGHT (1 / 2) = ((1200 : ℚ) : WithTop ℚ) := by
    rw [fdiv, if_neg (by norm_num)]
    norm_num [TRACK_HEIGHT]
  refine ⟨h5, by rw [h5]; exact htop, ?_, ?_, ?_⟩
  · rw [setup_scale, h5, h12, htop, hfin, min_eq_right le_top, WithTop.map_coe]
    norm_num
  · rw [h5, h12, setup_scale_spec]
    norm_num [TRACK_WIDTH, TRACK_HEIGHT]
  · rw [Ne, WithTop.coe_inj]
    norm_num

/-- C3 (amended): animation.py has no zero-range guard; the scale computation
divides directly by the raw ranges under IEEE float semantics, so a zero range
sends one fitting ratio to infinity (changing the result whenever the other
ratio exceeds the substitute-1 value), and whenever both ranges are non-zero
the scale is finite and equals `min(W/x_range, H/y_range) * 0.9`. -/
theorem c3_amended_unguarded_scale (x_range y_range : ℚ)
    (hx : x_range ≠ 0) (hy : y_range ≠ 0) :
    setup_scale x_range y_range =
      ((min (TRACK_WIDTH / x_range) (TRACK_HEIGHT / y_range) * (9 / 10) : ℚ) :
        WithTop ℚ) := by
  rw [setup_scale, fdiv, fdiv, if_neg hx, if_neg hy, ← WithTop.coe_min, WithTop.map_coe]

/-- Witness for C3 (amended) at ranges 2 and 3. -/
theorem c3_witness :
    (2 : ℚ) ≠ 0 ∧ (3 : ℚ) ≠ 0 ∧
    setup_scale 2 3 =
      ((min (TRACK_WIDTH / 2) (TRACK_HEIGHT / 3) * (9 / 10) : ℚ) : WithTop ℚ) :=
  ⟨by norm_num, by norm_num, c3_amended_unguarded_scale 2 3 (by norm_num) (by norm_num)⟩

/-! ## C4: zero lap duration never divides -/

/-- C4: the per-frame progress computation is guarded, so a zero lap duration
yields progress 0 instead of a division error. -/
theorem c4_progress_zero_duration (lap_time time_in_lap : ℚ) (h : lap_time = 0) :
    progressOf lap_time time_in_lap = 0 := by
  subst h
  rw [progressOf, if_neg (by norm_num)]

/-- Witness for C4 at duration 0 and elapsed-in-lap 5. -/
theorem c4_witness : (0 : ℚ) = 0 ∧ progressOf 0 5 = 0 :=
  ⟨rfl, c4_progress_zero_duration 0 5 rfl⟩

/-! ## C5: the fetcher's call signatures -/

/-- C5: the signatures defined in detail.py reject the calls the claim (and
the in-repo callers, main.py lines 68-73/111 and animation.py line 548)
expect: a third positional argument to `get_race_details` and the option
keywords of `get_current_season_races` raise `TypeError` before either
function's internal try/except can produce a tagged error value, while the
two-argument and plain one-argument forms bind fine. -/
theorem c5_signature_rejects_documented_calls :
    bindsOk get_race_details_sig 3 [] = false ∧
    bindsOk get_race_details_sig 2 [] = true ∧
    bindsOk get_current_season_races_sig 1 ["sprint_only"] = false ∧
    bindsOk get_current_season_races_sig 1 ["include_sprints", "exclude_testing"] = false ∧
    bindsOk get_current_season_races_sig 1 [] = true := by
  decide

/-! ## C6: aspect-ratio preservation of the canvas mapping -/

/-- C6: one common scale factor is applied to both axes by `mapPoint`, so the
mapped extent of the X samples is `x_range * scale`, the mapped extent of the
Y samples is `y_range * scale`, and their ratio is `x_range / y_range`. -/
theorem c6_uniform_scale_preserves_aspect (p : ScaleParams)
    (hx : p.x_range = p.x_max - p.x_min) (hy : p.y_range = p.y_max - p.y_min)
    (hs : p.scale ≠ 0) (hyr : p.y_range ≠ 0) :
    (mapPoint p p.x_max p.y_max).1 - (mapPoint p p.x_min p.y_max).1 = p.x_range * p.scale ∧
    (mapPoint p p.x_max p.y_max).2 - (mapPoint p p.x_max p.y_min).2 = p.y_range * p.scale ∧
    (p.x_range * p.scale) / (p.y_range * p.scale) = p.x_range / p.y_range := by
  refine ⟨?_, ?_, ?_⟩
  · rw [mapPoint, mapPoint, hx]
    ring
  · rw [mapPoint, mapPoint, hy]
    ring
  · rw [mul_div_mul_right _ _ hs]

/-- Concrete scale parameters used to witness C6. -/
def paramsW : ScaleParams :=
  { x_min := 0, x_max := 10, y_min := 0, y_max := 5,
    x_range := 10, y_range := 5, scale := 2 }

/-- Witness for C6 at `paramsW`. -/
theorem c6_witness :
    paramsW.x_range = paramsW.x_max - paramsW.x_min ∧
    paramsW.y_range = paramsW.y_max - paramsW.y_min ∧
    paramsW.scale ≠ 0 ∧ paramsW.y_range ≠ 0 ∧
    ((mapPoint paramsW paramsW.x_max paramsW.y_max).1 -
        (mapPoint paramsW paramsW.x_min paramsW.y_max).1 = paramsW.x_range * paramsW.scale ∧
     (mapPoint paramsW paramsW.x_max paramsW.y_max).2 -
        (mapPoint paramsW paramsW.x_max paramsW.y_min).2 = paramsW.y_range * paramsW.scale ∧
     (paramsW.x_range * paramsW.scale) / (paramsW.y_range * paramsW.scale) =
        paramsW.x_range / paramsW.y_range) :=
  ⟨by norm_num [paramsW], by norm_num [paramsW], by norm_num [paramsW],
   by norm_num [paramsW],
   c6_uniform_scale_preserves_aspect paramsW (by norm_num [paramsW])
     (by norm_num [paramsW]) (by norm_num [paramsW]) (by norm_num [paramsW])⟩

/-! ## C7: restart resets everything -/

/-- C7: from any prior state, `restart_race` zeroes the elapsed time, resets
every car's lap index, lap start time and (x, y) to the values `Car.__init__`
gave them, and unpauses the animation. -/
theorem c7_restart_resets (s : RaceAnimation) :
    s.restart_race.time_elapsed = 0 ∧
    s.restart_race.is_paused = false ∧
    s.restart_race.cars = s.cars.map Car.restart ∧
    ∀ c : Car,
      (Car.restart c).current_lap = 0 ∧
      (Car.restart c).lap_start_time = 0 ∧
      (Car.restart c).x = (Car.init c.driver_name c.team_color c.position).x ∧
      (Car.restart c).y = (Car.init c.driver_name c.team_color c.position).y :=
  ⟨rfl, rfl, rfl, fun c => ⟨rfl, rfl, rfl, rfl⟩⟩

/-! ## C8: the speed multiplier -/

/-- One input event keeps an in-range speed multiplier in [10, 1000]. -/
lemma handle_speed_bounds (s : RaceAnimation) (i : AnimInput)
    (h1 : 10 ≤ s.speed_multiplier) (h2 : s.speed_multiplier ≤ 1000) :
    10 ≤ (s.handle i).speed_multiplier ∧ (s.handle i).speed_multiplier ≤ 1000 := by
  cases i with
  | key k =>
    cases k
    case space => exact ⟨h1, h2⟩
    case r => exact ⟨h1, h2⟩
    case escape => exact ⟨h1, h2⟩
    case zero => exact ⟨h1, h2⟩
    case plus => exact ⟨h1, h2⟩
    case minus => exact ⟨h1, h2⟩
    case up =>
      show 10 ≤ min 1000 (s.speed_multiplier + 10) ∧ min 1000 (s.speed_multiplier + 10) ≤ 1000
      omega
    case down =>
      show 10 ≤ max 10 (s.speed_multiplier - 10) ∧ max 10 (s.speed_multiplier - 10) ≤ 1000
      omega
  | scroll a b sx sy =>
    show 10 ≤ (s.on_mouse_scroll a b sx sy).speed_multiplier ∧
         (s.on_mouse_scroll a b sx sy).speed_multiplier ≤ 1000
    rw [RaceAnimation.on_mouse_scroll]
    split_ifs
    · exact ⟨h1, h2⟩
    · exact ⟨h1, h2⟩
    · exact ⟨h1, h2⟩

/-- Any sequence of input events keeps an in-range speed multiplier
in [10, 1000]. -/
lemma run_inputs_speed_bounds (l : List AnimInput) : ∀ s : RaceAnimation,
    10 ≤ s.speed_multiplier → s.speed_multiplier ≤ 1000 →
    10 ≤ (s.run_inputs l).speed_multiplier ∧ (s.run_inputs l).speed_multiplier ≤ 1000 := by
  induction l with
  | nil => exact fun s h1 h2 => ⟨h1, h2⟩
  | cons i l ih =>
    intro s h1 h2
    obtain ⟨a, b⟩ := handle_speed_bounds s i h1 h2
    exact ih (s.handle i) a b

/-- C8 counterexample: the initial speed multiplier set by `__init__` is 1,
which is outside the configured range [10, 1000]. -/
theorem c8_counterexample_initial_speed :
    (RaceAnimation.init [] []).speed_multiplier = 1 ∧
    ¬ 10 ≤ (RaceAnimation.init [] []).speed_multiplier :=
  ⟨rfl, by decide⟩

/-- C8 (amended): the initial speed multiplier is 1, outside [10, 1000]; the
first speed-adjust key press brings it into [10, 1000] (UP gives 11, DOWN
clamps to 10), and from any in-range speed every further input sequence keeps
it in [10, 1000]. -/
theorem c8_amended_speed_clamped_after_first_adjust :
    (∀ (cars : List Car) (tm : List (ℚ × ℚ)) (k : Key), k = Key.up ∨ k = Key.down →
      10 ≤ ((RaceAnimation.init cars tm).on_key_press k).speed_multiplier ∧
      ((RaceAnimation.init cars tm).on_key_press k).speed_multiplier ≤ 1000) ∧
    (∀ (s : RaceAnimation) (l : List AnimInput),
      10 ≤ s.speed_multiplier → s.speed_multiplier ≤ 1000 →
      10 ≤ (s.run_inputs l).speed_multiplier ∧
      (s.run_inputs l).speed_multiplier ≤ 1000) := by
  constructor
  · rintro cars tm k (rfl | rfl)
    · constructor
      · show (10 : ℤ) ≤ min 1000 (1 + 10)
        decide
      · show min 1000 (1 + 10) ≤ (1000 : ℤ)
        decide
    · constructor
      · show (10 : ℤ) ≤ max 10 (1 - 10)
        decide
      · show max 10 (1 - 10) ≤ (1000 : ℤ)
        decide
  · exact fun s l => run_inputs_speed_bounds l s

/-- Witness for C8 (amended): one UP press from the initial state, then a
DOWN press from the resulting state. -/
theorem c8_witness :
    (Key.up = Key.up ∨ Key.up = Key.down) ∧
    (10 ≤ ((RaceAnimation.init [] []).on_key_press Key.up).speed_multiplier ∧
     ((RaceAnimation.init [] []).on_key_press Key.up).speed_multiplier ≤ 1000) ∧
    (10 ≤ (((RaceAnimation.init [] []).on_key_press Key.up).run_inputs
        [AnimInput.key Key.down]).speed_multiplier ∧
     (((RaceAnimation.init [] []).on_key_press Key.up).run_inputs
        [AnimInput.key Key.down]).speed_multiplier ≤ 1000) :=
  ⟨Or.inl rfl,
   c8_amended_speed_clamped_after_first_adjust.1 [] [] Key.up (Or.inl rfl),
   c8_amended_speed_clamped_after_first_adjust.2
     ((RaceAnimation.init [] []).on_key_press Key.up)
     [AnimInput.key Key.down] (by decide) (by decide)⟩

/-! ## C9: the zoom level -/

/-- One input event keeps the zoom level in [0.5, 5]. -/
lemma handle_zoom_bounds (s : RaceAnimation) (i : AnimInput)
    (h1 : 1 / 2 ≤ s.zoom_level) (h2 : s.zoom_level ≤ 5) :
    1 / 2 ≤ (s.handle i).zoom_level ∧ (s.handle i).zoom_level ≤ 5 := by
  cases i with
  | key k =>
    cases k
    case space => exact ⟨h1, h2⟩
    case r => exact ⟨h1, h2⟩
    case escape => exact ⟨h1, h2⟩
    case up => exact ⟨h1, h2⟩
    case down => exact ⟨h1, h2⟩
    case plus =>
      show 1 / 2 ≤ min 5 (s.zoom_level + 1 / 5) ∧ min 5 (s.zoom_level + 1 / 5) ≤ 5
      exact ⟨le_min (by norm_num) (by linarith), min_le_left _ _⟩
    case minus =>
      show 1 / 2 ≤ max (1 / 2) (s.zoom_level - 1 / 5) ∧
           max (1 / 2) (s.zoom_level - 1 / 5) ≤ 5
      exact ⟨le_max_left _ _, max_le (by norm_num) (by linarith)⟩
    case zero =>
      show (1 : ℚ) / 2 ≤ 1 ∧ (1 : ℚ) ≤ 5
      exact ⟨by norm_num, by norm_num⟩
  | scroll a b sx sy =>
    show 1 / 2 ≤ (s.on_mouse_scroll a b sx sy).zoom_level ∧
         (s.on_mouse_scroll a b sx sy).zoom_level ≤ 5
    rw [RaceAnimation.on_mouse_scroll]
    split_ifs
    · exact ⟨le_min (by norm_num) (by linarith), min_le_left _ _⟩
    · exact ⟨le_max_left _ _, max_le (by norm_num) (by linarith)⟩
    · exact ⟨h1, h2⟩

/-- Any sequence of input events keeps the zoom level in [0.5, 5]. -/
lemma run_inputs_zoom_bounds (l : List AnimInput) : ∀ s : RaceAnimation,
    1 / 2 ≤ s.zoom_level → s.zoom_level ≤ 5 →
    1 / 2 ≤ (s.run_inputs l).zoom_level ∧ (s.run_inputs l).zoom_level ≤ 5 := by
  induction l with
  | nil => exact fun s h1 h2 => ⟨h1, h2⟩
  | cons i l ih =>
    intro s h1 h2
    obtain ⟨a, b⟩ := handle_zoom_bounds s i h1 h2
    exact ih (s.handle i) a b

/-- C9: starting from the initial zoom level 1.0, every sequence of zoom-in,
zoom-out, mouse-scroll and reset-zoom inputs keeps the zoom level within
[0.5, 5.0]; and at the minimum 0.5, a further decrement key press leaves it
at 0.5. -/
theorem c9_zoom_clamped (cars : List Car) (tm : List (ℚ × ℚ))
    (l : List AnimInput) (s : RaceAnimation) (hs : s.zoom_level = 1 / 2) :
    (1 / 2 ≤ ((RaceAnimation.init cars tm).run_inputs l).zoom_level ∧
     ((RaceAnimation.init cars tm).run_inputs l).zoom_level ≤ 5) ∧
    (s.on_key_press Key.minus).zoom_level = 1 / 2 := by
  constructor
  · exact run_inputs_zoom_bounds l _ (by norm_num [RaceAnimation.init])
      (by norm_num [RaceAnimation.init])
  · show max (1 / 2) (s.zoom_level - 1 / 5) = 1 / 2
    rw [hs, max_eq_left (by norm_num)]

/-- A state whose zoom level sits at the minimum 0.5. -/
def sHalf : RaceAnimation := { RaceAnimation.init [] [] with zoom_level := 1 / 2 }

/-- Witness for C9 at the empty race, one MINUS press, and `sHalf`. -/
theorem c9_witness :
    sHalf.zoom_level = 1 / 2 ∧
    (1 / 2 ≤ ((RaceAnimation.init [] []).run_inputs [AnimInput.key Key.minus]).zoom_level ∧
     ((RaceAnimation.init [] []).run_inputs [AnimInput.key Key.minus]).zoom_level ≤ 5) ∧
    (sHalf.on_key_press Key.minus).zoom_level = 1 / 2 :=
  ⟨rfl,
   (c9_zoom_clamped [] [] [AnimInput.key Key.minus] sHalf rfl).1,
   (c9_zoom_clamped [] [] [AnimInput.key Key.minus] sHalf rfl).2⟩

/-! ## C10: parallel per-lap sequences -/

/-- Folding the per-driver fallback loop adds one duration and one position
list per lap, but two tyre labels per lap. -/
lemma foldl_fallback_driver_lengths (bt : ℚ) (ns : List ℕ) : ∀ c : Car,
    ((ns.foldl (add_fallback_lap_driver bt) c).lap_data.length
        = c.lap_data.length + ns.length) ∧
    ((ns.foldl (add_fallback_lap_driver bt) c).position_data.length
        = c.position_data.length + ns.length) ∧
    ((ns.foldl (add_fallback_lap_driver bt) c).tyre_compounds.length
        = c.tyre_compounds.length + 2 * ns.length) := by
  induction ns with
  | nil => exact fun c => ⟨rfl, rfl, by simp⟩
  | cons n ns ih =>
    intro c
    obtain ⟨ha, hb, hc⟩ := ih (add_fallback_lap_driver bt c n)
    rw [List.foldl_cons]
    refine ⟨?_, ?_, ?_⟩
    · rw [ha]
      simp only [add_fallback_lap_driver, List.length_append, List.length_cons,
        List.length_nil, List.length_singleton]
      omega
    · rw [hb]
      simp only [add_fallback_lap_driver, List.length_append, List.length_cons,
        List.length_nil, List.length_singleton]
      omega
    · rw [hc]
      simp only [add_fallback_lap_driver, List.length_append, List.length_cons,
        List.length_nil, List.length_singleton]
      omega

/-- C10 (code bug): in the per-driver fallback branch of `setup_race`
(animation.py lines 219-228), `'UNKNOWN'` is appended to `tyre_compounds`
twice per lap, so the tyre list ends up twice as long as the parallel
duration and position lists; already at a single fallback lap the lengths
are 1, 1 and 2. -/
theorem c10_fallback_driver_tyre_length_mismatch (d t : String) (p idx n : ℕ) :
    (build_fallback_driver idx n (Car.init d t p)).lap_data.length = n ∧
    (build_fallback_driver idx n (Car.init d t p)).position_data.length = n ∧
    (build_fallback_driver idx n (Car.init d t p)).tyre_compounds.length = 2 * n := by
  obtain ⟨ha, hb, hc⟩ := foldl_fallback_driver_lengths (85 + (idx : ℚ) * (3 / 2))
    (List.range n) (Car.init d t p)
  simp only [build_fallback_driver]
  refine ⟨?_, ?_, ?_⟩
  · simpa [Car.init] using ha
  · simpa [Car.init] using hb
  · simpa [Car.init] using hc

end F1
